import Mathlib

/-!
Verification of the CSV-to-SQL import script
src/src/main/java/utils/ConvertCSVtoSQL.py.

The script reads a CSV file of listening history, and for each row:
unpacks five fields, parses the timestamp with
datetime.strptime(s, "%B %d, %Y at %I:%M%p"), looks up or inserts an
artist by name, looks up or inserts a song by spotify_id, and inserts a
listening-history row; it commits once at the very end and then closes
the cursor and the connection and prints a success message. No error is
caught anywhere, so any failure aborts the process before the commit,
the close calls and the print.

The embedding below models the database as in-memory tables, the CSV
reader as a per-line state machine with the semantics of Python's
csv.reader default dialect, and strptime as a parser for the exact
format string, including the regex alternations Python builds for each
directive.
-/

namespace ConvertCSVtoSQL

/-! ## CSV reader model (Python csv.reader, default dialect, one record per line) -/

/-- States of the csv.reader field scanner: at the start of a field, inside
an unquoted field, inside a quoted field, or just after a quote character
inside a quoted field. -/
inductive CsvState
  | startField
  | inField
  | inQuoted
  | quoteInQuoted
deriving Repr, DecidableEq

/-- Field scanner of csv.reader for a single line, default dialect:
delimiter comma, quote character double quote, doubled quotes inside a
quoted field produce one literal quote, and in non-strict mode text after
a closing quote is appended to the field. An empty line yields no fields. -/
def csvScan : CsvState → List Char → List Char → List String → List String
  | .startField, [], _, acc => if acc = [] then [] else acc ++ [""]
  | .inField, [], field, acc => acc ++ [String.mk field]
  | .inQuoted, [], field, acc => acc ++ [String.mk field]
  | .quoteInQuoted, [], field, acc => acc ++ [String.mk field]
  | .startField, c :: rest, field, acc =>
    if c = '"' then csvScan .inQuoted rest field acc
    else if c = ',' then csvScan .startField rest [] (acc ++ [""])
    else csvScan .inField rest (field ++ [c]) acc
  | .inField, c :: rest, field, acc =>
    if c = ',' then csvScan .startField rest [] (acc ++ [String.mk field])
    else csvScan .inField rest (field ++ [c]) acc
  | .inQuoted, c :: rest, field, acc =>
    if c = '"' then csvScan .quoteInQuoted rest field acc
    else csvScan .inQuoted rest (field ++ [c]) acc
  | .quoteInQuoted, c :: rest, field, acc =>
    if c = '"' then csvScan .inQuoted rest (field ++ ['"']) acc
    else if c = ',' then csvScan .startField rest [] (acc ++ [String.mk field])
    else csvScan .inField rest (field ++ [c]) acc

/-- One record of csv.reader from one input line (records spanning several
lines through embedded newlines in quoted fields are outside this model;
the inputs considered here are single-line records). -/
def csvParseLine (s : String) : List String :=
  csvScan .startField s.data [] []

/-! ## strptime model for the format "%B %d, %Y at %I:%M%p" (line 26) -/

/-- ASCII lower-casing of one character, standing in for the
case-insensitive matching (re.IGNORECASE) Python's strptime uses. -/
def lowerChar (c : Char) : Char :=
  if 'A' ≤ c ∧ c ≤ 'Z' then Char.ofNat (c.toNat + 32) else c

/-- Whitespace as matched by the regex class strptime substitutes for
spaces in the format string. -/
def isSpaceChar (c : Char) : Bool :=
  c == ' ' || c == '\t' || c == '\n' || c == '\r' || c == Char.ofNat 11 || c == Char.ofNat 12

/-- Numeric value of a digit character. -/
def digitVal (c : Char) : Nat := c.toNat - 48

/-- Drop an exact expected character sequence from the front of the input. -/
def stripExact : List Char → List Char → Option (List Char)
  | [], s => some s
  | _ :: _, [] => none
  | p :: ps, c :: cs => if c = p then stripExact ps cs else none

/-- The twelve full month names %B matches, lower-cased, with their numbers. -/
def monthNames : List (List Char × Nat) :=
  [("january".data, 1), ("february".data, 2), ("march".data, 3), ("april".data, 4),
   ("may".data, 5), ("june".data, 6), ("july".data, 7), ("august".data, 8),
   ("september".data, 9), ("october".data, 10), ("november".data, 11), ("december".data, 12)]

/-- Try each month name as a prefix of the input (no month name is a
prefix of another, so the order is immaterial). -/
def parseMonthAux : List (List Char × Nat) → List Char → Option (Nat × List Char)
  | [], _ => none
  | (nm, m) :: rest, s =>
    match stripExact nm s with
    | some r => some (m, r)
    | none => parseMonthAux rest s

/-- Match %B: a full month name. -/
def parseMonth (s : List Char) : Option (Nat × List Char) :=
  parseMonthAux monthNames s

/-- Match one or more whitespace characters, as strptime does for each
whitespace run in the format string. -/
def ws1 (s : List Char) : Option (List Char) :=
  match s with
  | c :: rest => if isSpaceChar c then some (rest.dropWhile isSpaceChar) else none
  | [] => none

/-- Match %d with Python's alternation 3[01] | [12][0-9] | 0[1-9] | [1-9],
tried in that order. -/
def parseDay : List Char → Option (Nat × List Char)
  | c1 :: c2 :: rest =>
    if c1 = '3' ∧ (c2 = '0' ∨ c2 = '1') then some (30 + digitVal c2, rest)
    else if (c1 = '1' ∨ c1 = '2') ∧ c2.isDigit then some (digitVal c1 * 10 + digitVal c2, rest)
    else if c1 = '0' ∧ ('1' ≤ c2 ∧ c2 ≤ '9') then some (digitVal c2, rest)
    else if '1' ≤ c1 ∧ c1 ≤ '9' then some (digitVal c1, c2 :: rest)
    else none
  | [c1] => if '1' ≤ c1 ∧ c1 ≤ '9' then some (digitVal c1, []) else none
  | [] => none

/-- Match %Y: exactly four digits. -/
def parseYear4 : List Char → Option (Nat × List Char)
  | a :: b :: c :: d :: rest =>
    if a.isDigit ∧ b.isDigit ∧ c.isDigit ∧ d.isDigit then
      some (digitVal a * 1000 + digitVal b * 100 + digitVal c * 10 + digitVal d, rest)
    else none
  | _ => none

/-- Match %I with Python's alternation 1[0-2] | 0[1-9] | [1-9]. -/
def parseHour12 : List Char → Option (Nat × List Char)
  | c1 :: c2 :: rest =>
    if c1 = '1' ∧ (c2 = '0' ∨ c2 = '1' ∨ c2 = '2') then some (10 + digitVal c2, rest)
    else if c1 = '0' ∧ ('1' ≤ c2 ∧ c2 ≤ '9') then some (digitVal c2, rest)
    else if '1' ≤ c1 ∧ c1 ≤ '9' then some (digitVal c1, c2 :: rest)
    else none
  | [c1] => if '1' ≤ c1 ∧ c1 ≤ '9' then some (digitVal c1, []) else none
  | [] => none

/-- Match %M with Python's alternation [0-5][0-9] | [0-9]. -/
def parseMinute : List Char → Option (Nat × List Char)
  | c1 :: c2 :: rest =>
    if ('0' ≤ c1 ∧ c1 ≤ '5') ∧ c2.isDigit then some (digitVal c1 * 10 + digitVal c2, rest)
    else if c1.isDigit then some (digitVal c1, c2 :: rest)
    else none
  | [c1] => if c1.isDigit then some (digitVal c1, []) else none
  | [] => none

/-- Match %p on the lower-cased input: am or pm; the result records
whether the pm half-day was matched. -/
def parseAmPm : List Char → Option (Bool × List Char)
  | 'a' :: 'm' :: rest => some (false, rest)
  | 'p' :: 'm' :: rest => some (true, rest)
  | _ => none

/-- Gregorian leap-year rule used by datetime's day-of-month validation. -/
def isLeapYear (y : Nat) : Bool :=
  y % 4 == 0 && (y % 100 != 0 || y % 400 == 0)

/-- Number of days of a month, as datetime validates on construction. -/
def daysInMonth (y m : Nat) : Nat :=
  if m = 2 then (if isLeapYear y then 29 else 28)
  else if m = 4 ∨ m = 6 ∨ m = 9 ∨ m = 11 then 30
  else 31

/-- A wall-clock timestamp as produced by datetime.strptime (seconds are
always zero for this format and are omitted). -/
structure DateTime where
  year : Nat
  month : Nat
  day : Nat
  hour : Nat
  minute : Nat
deriving Repr, DecidableEq

/-- Model of datetime.strptime(s, "%B %d, %Y at %I:%M%p") at line 26:
the format compiles to the anchored case-insensitive pattern
month \s+ day , \s+ year \s+ at \s+ hour : minute (am|pm), the whole
input must be consumed, the day must fit the month, the year must be
positive, and the 12-hour value is folded with the am/pm half-day.
The result is none exactly when strptime raises ValueError, the error
the specification names DateParseError. -/
def parseDateTime (s : String) : Option DateTime := do
  let cs := s.data.map lowerChar
  let (month, r1) ← parseMonth cs
  let r2 ← ws1 r1
  let (day, r3) ← parseDay r2
  let r4 ← stripExact [','] r3
  let r5 ← ws1 r4
  let (year, r6) ← parseYear4 r5
  let r7 ← ws1 r6
  let r8 ← stripExact ['a', 't'] r7
  let r9 ← ws1 r8
  let (hour12, r10) ← parseHour12 r9
  let r11 ← stripExact [':'] r10
  let (minute, r12) ← parseMinute r11
  let (isPM, r13) ← parseAmPm r12
  if r13 = [] ∧ 1 ≤ year ∧ day ≤ daysInMonth year month then
    some ⟨year, month, day,
          if isPM then (if hour12 = 12 then 12 else hour12 + 12)
          else (if hour12 = 12 then 0 else hour12),
          minute⟩
  else none

/-! ## Database model: the three tables the script touches -/

/-- A row of the artists table: id PK, name. -/
structure ArtistRow where
  id : Nat
  name : String
deriving Repr, DecidableEq

/-- A row of the songs table: id PK, name, artist_id FK, spotify_id, link. -/
structure SongRow where
  id : Nat
  name : String
  artist_id : Nat
  spotify_id : String
  link : String
deriving Repr, DecidableEq

/-- A row of the user_listening_history table. The script's INSERT never
supplies listening_time, hence the Option. -/
structure HistoryRow where
  user_id : Nat
  song_id : Nat
  date_listened : DateTime
  listening_time : Option Nat
deriving Repr, DecidableEq

/-- The database state: the three tables in insertion order, plus the
sequences that generate the surrogate keys RETURNING id hands back. -/
structure DB where
  artists : List ArtistRow
  songs : List SongRow
  history : List HistoryRow
  nextArtistId : Nat
  nextSongId : Nat
deriving Repr, DecidableEq

/-- A database with empty tables, as in the end-to-end example. -/
def emptyDB : DB := ⟨[], [], [], 1, 1⟩

/-- The three ways a run aborts, named as the specification names them:
a row that does not unpack into five values, a timestamp strptime
rejects, and a statement the database rejects. -/
inductive RunError
  | malformedRow
  | dateParseError
  | databaseError
deriving Repr, DecidableEq

/-- Lines 29-36: SELECT id FROM artists WHERE name = artist_name and
fetchone; if no row was found, INSERT INTO artists (name) RETURNING id.
Returns the resolved artist id and the updated state. -/
def resolveArtist (artist_name : String) (db : DB) : Nat × DB :=
  match db.artists.find? (fun a => a.name == artist_name) with
  | some a => (a.id, db)
  | none =>
    (db.nextArtistId,
     ⟨db.artists ++ [⟨db.nextArtistId, artist_name⟩], db.songs, db.history,
      db.nextArtistId + 1, db.nextSongId⟩)

/-- Lines 38-49: SELECT id FROM songs WHERE spotify_id = spotify_id and
fetchone; if no row was found, INSERT INTO songs (name, artist_id,
spotify_id, link) RETURNING id. Returns the resolved song id and the
updated state. -/
def resolveSong (song_name : String) (artist_id : Nat) (spotify_id : String)
    (link : String) (db : DB) : Nat × DB :=
  match db.songs.find? (fun s => s.spotify_id == spotify_id) with
  | some s => (s.id, db)
  | none =>
    (db.nextSongId,
     ⟨db.artists,
      db.songs ++ [⟨db.nextSongId, song_name, artist_id, spotify_id, link⟩],
      db.history, db.nextArtistId, db.nextSongId + 1⟩)

/-- The target column list of the history INSERT at lines 51-55, as
written in the source. -/
def historyInsertTargetColumns : List String :=
  ["user_id", "song_id", "date_listened", "listening_time"]

/-- The number of value placeholders the same statement supplies:
VALUES with three occurrences of a placeholder. -/
def historyInsertValueCount : Nat := 3

/-- Lines 51-55: the INSERT INTO user_listening_history executed with the
parameters (1, song_id, date_time). PostgreSQL accepts an INSERT only when
the target column list and the VALUES list have the same arity; this
statement names four columns and supplies three values, so the database
rejects it. The accepting branch records the row the three parameters
would populate. -/
def insertHistory (user_id : Nat) (song_id : Nat) (date_time : DateTime)
    (db : DB) : Except RunError DB :=
  if historyInsertTargetColumns.length = historyInsertValueCount then
    .ok ⟨db.artists, db.songs,
         db.history ++ [⟨user_id, song_id, date_time, none⟩],
         db.nextArtistId, db.nextSongId⟩
  else
    .error .databaseError

/-- The body of the row loop, lines 21-55: unpack the row into exactly
five variables (a mismatch raises the error the specification calls
MalformedRowError), parse the timestamp, resolve the artist, resolve the
song, and execute the history INSERT. -/
def processRow (row : List String) (db : DB) : Except RunError DB :=
  match row with
  | [date_time_str, song_name, artist_name, spotify_id, link] =>
    match parseDateTime date_time_str with
    | none => .error .dateParseError
    | some date_time =>
      let ar := resolveArtist artist_name db
      let so := resolveSong song_name ar.1 spotify_id link ar.2
      insertHistory 1 so.1 date_time so.2
  | _ => .error .malformedRow

/-- The row loop over the parsed records: each row is processed in order
and the first error aborts the loop. -/
def runRows : List (List String) → DB → Except RunError DB
  | [], db => .ok db
  | row :: rest, db =>
    match processRow row db with
    | .ok db2 => runRows rest db2
    | .error e => .error e

/-- Everything observable when the process exits: the outcome, the
committed database state, whether the close calls on the cursor and the
connection were executed, and what was printed. -/
structure ScriptOutcome where
  result : Except RunError Unit
  db : DB
  curClosed : Bool
  connClosed : Bool
  stdout : List String
deriving Repr

/-- The whole script on a list of input lines (lines 18-61): the reader
parses each line, the loop runs, and only on normal completion do
conn.commit(), cur.close(), conn.close() and the final print execute.
On any error the exception propagates: nothing is committed, so the
database keeps its initial state, no close call runs, and nothing is
printed. -/
def script (lines : List String) (db : DB) : ScriptOutcome :=
  match runRows (lines.map csvParseLine) db with
  | .ok db2 => ⟨.ok (), db2, true, true, ["Data imported successfully!"]⟩
  | .error e => ⟨.error e, db, false, false, []⟩

/-- Whether a run reached the success epilogue. -/
def runSucceeded (o : ScriptOutcome) : Bool :=
  match o.result with
  | .ok _ => true
  | .error _ => false

/-! ## Observations used by the invariant claims -/

/-- Referential integrity: every history row names an existing song and
every song names an existing artist. -/
def refIntegrity (db : DB) : Prop :=
  (∀ e ∈ db.history, ∃ s ∈ db.songs, s.id = e.song_id) ∧
  (∀ s ∈ db.songs, ∃ a ∈ db.artists, a.id = s.artist_id)

instance (db : DB) : Decidable (refIntegrity db) := by
  unfold refIntegrity
  infer_instance

/-- Every row of the first state is still present, unchanged, in the
second: the pipeline only appends, never updates or deletes. -/
def dbPreserves (d1 d2 : DB) : Prop :=
  (∀ a ∈ d1.artists, a ∈ d2.artists) ∧
  (∀ s ∈ d1.songs, s ∈ d2.songs) ∧
  (∀ e ∈ d1.history, e ∈ d2.history)

instance (d1 d2 : DB) : Decidable (dbPreserves d1 d2) := by
  unfold dbPreserves
  infer_instance

/-- The transaction states after each statement that mutates the
database while one row is processed, in execution order: the state after
the artist resolve, after the song resolve, and, had the history INSERT
been accepted, after it. -/
def rowTrace (row : List String) (db : DB) : List DB :=
  match row with
  | [date_time_str, song_name, artist_name, spotify_id, link] =>
    match parseDateTime date_time_str with
    | none => []
    | some date_time =>
      let ar := resolveArtist artist_name db
      let so := resolveSong song_name ar.1 spotify_id link ar.2
      match insertHistory 1 so.1 date_time so.2 with
      | .ok db3 => [ar.2, so.2, db3]
      | .error _ => [ar.2, so.2]
  | _ => []

/-- The transaction states after each mutating statement over the whole
row loop. -/
def runTrace : List (List String) → DB → List DB
  | [], _ => []
  | row :: rest, db =>
    match processRow row db with
    | .ok db2 => rowTrace row db ++ runTrace rest db2
    | .error _ => rowTrace row db

/-- The transaction states of a run of the script on the given lines. -/
def scriptTrace (lines : List String) (db : DB) : List DB :=
  runTrace (lines.map csvParseLine) db

/-- CSV encoding of one record with every field wrapped in double
quotes, used to state what quoting buys over naive comma splitting. -/
def encodeQuoted : List String → String
  | [] => ""
  | [f] => "\"" ++ f ++ "\""
  | f :: g :: rest => "\"" ++ f ++ "\"," ++ encodeQuoted (g :: rest)

/-! ## Helper lemmas -/

/-- The history INSERT is rejected on every call: its column list has
four entries and its VALUES list three. -/
theorem insertHistory_fails (u sid : Nat) (dt : DateTime) (db : DB) :
    insertHistory u sid dt db = .error .databaseError := rfl

/-- Every iteration of the row loop ends in an error: a row of the wrong
shape or with a bad timestamp fails at once, and a fully well-formed row
fails at the history INSERT. -/
theorem processRow_error (row : List String) (db : DB) :
    ∃ e, processRow row db = Except.error e := by
  rcases row with _ | ⟨t, _ | ⟨sn, _ | ⟨an, _ | ⟨si, _ | ⟨lk, _ | ⟨x, xs⟩⟩⟩⟩⟩⟩
  · exact ⟨.malformedRow, rfl⟩
  · exact ⟨.malformedRow, rfl⟩
  · exact ⟨.malformedRow, rfl⟩
  · exact ⟨.malformedRow, rfl⟩
  · exact ⟨.malformedRow, rfl⟩
  · cases h : parseDateTime t with
    | none => exact ⟨.dateParseError, by simp [processRow, h]⟩
    | some dt => exact ⟨.databaseError, by simp [processRow, h, insertHistory_fails]⟩
  · exact ⟨.malformedRow, rfl⟩

/-- A row that does not unpack into exactly five values fails with the
unpacking error before anything else runs. -/
theorem processRow_not5 (row : List String) (db : DB) (h : row.length ≠ 5) :
    processRow row db = .error .malformedRow := by
  rcases row with _ | ⟨t, _ | ⟨sn, _ | ⟨an, _ | ⟨si, _ | ⟨lk, _ | ⟨x, xs⟩⟩⟩⟩⟩⟩
  · rfl
  · rfl
  · rfl
  · rfl
  · rfl
  · simp at h
  · rfl

/-- The committed database is always the initial one: an empty input
commits nothing, and any nonempty input aborts before the commit because
its first row already fails. -/
theorem script_db_eq (lines : List String) (db : DB) :
    (script lines db).db = db := by
  cases lines with
  | nil => rfl
  | cons l ls =>
    obtain ⟨e, he⟩ := processRow_error (csvParseLine l) db
    simp [script, runRows, he]

/-- What the artist lookup-or-insert does to the state: songs and
history are untouched, every artist row survives, and the returned id
names an artist present afterwards. -/
theorem resolveArtist_spec (an : String) (db : DB) :
    (resolveArtist an db).2.songs = db.songs ∧
    (resolveArtist an db).2.history = db.history ∧
    (∀ a ∈ db.artists, a ∈ (resolveArtist an db).2.artists) ∧
    (∃ a ∈ (resolveArtist an db).2.artists, a.id = (resolveArtist an db).1) := by
  cases h : db.artists.find? (fun a => a.name == an) with
  | some a =>
    simp only [resolveArtist, h]
    exact ⟨trivial, trivial, fun x hx => hx, ⟨a, List.mem_of_find?_eq_some h, rfl⟩⟩
  | none =>
    simp only [resolveArtist, h]
    refine ⟨trivial, trivial, fun x hx => List.mem_append_left _ hx, ?_⟩
    exact ⟨⟨db.nextArtistId, an⟩, List.mem_append_right _ (by simp), rfl⟩

/-- What the song lookup-or-insert does to the state: artists and
history are untouched, every song row survives, and any song present
afterwards was already present or carries the artist id that was passed
in. -/
theorem resolveSong_spec (sn : String) (aid : Nat) (si lk : String) (db : DB) :
    (resolveSong sn aid si lk db).2.artists = db.artists ∧
    (resolveSong sn aid si lk db).2.history = db.history ∧
    (∀ s ∈ db.songs, s ∈ (resolveSong sn aid si lk db).2.songs) ∧
    (∀ s ∈ (resolveSong sn aid si lk db).2.songs, s ∈ db.songs ∨ s.artist_id = aid) := by
  cases h : db.songs.find? (fun s => s.spotify_id == si) with
  | some s =>
    simp only [resolveSong, h]
    exact ⟨trivial, trivial, fun x hx => hx, fun x hx => .inl hx⟩
  | none =>
    simp only [resolveSong, h]
    refine ⟨trivial, trivial, fun x hx => List.mem_append_left _ hx, fun x hx => ?_⟩
    rcases List.mem_append.1 hx with hx | hx
    · exact .inl hx
    · right
      have hx2 : x = ⟨db.nextSongId, sn, aid, si, lk⟩ := by simpa using hx
      rw [hx2]

/-- The artist resolve preserves referential integrity. -/
theorem refIntegrity_resolveArtist (an : String) (db : DB) (hdb : refIntegrity db) :
    refIntegrity (resolveArtist an db).2 := by
  obtain ⟨hs, hh, hmono, _⟩ := resolveArtist_spec an db
  constructor
  · intro e he
    rw [hh] at he
    rw [hs]
    exact hdb.1 e he
  · intro s hsm
    rw [hs] at hsm
    obtain ⟨a, ha, hid⟩ := hdb.2 s hsm
    exact ⟨a, hmono a ha, hid⟩

/-- The song resolve preserves referential integrity provided the artist
id it is given names an existing artist. -/
theorem refIntegrity_resolveSong (sn : String) (aid : Nat) (si lk : String) (db : DB)
    (hdb : refIntegrity db) (haid : ∃ a ∈ db.artists, a.id = aid) :
    refIntegrity (resolveSong sn aid si lk db).2 := by
  obtain ⟨ha, hh, hmono, hnew⟩ := resolveSong_spec sn aid si lk db
  constructor
  · intro e he
    rw [hh] at he
    obtain ⟨s, hs, hid⟩ := hdb.1 e he
    exact ⟨s, hmono s hs, hid⟩
  · intro s hs
    rcases hnew s hs with hold | hnewid
    · obtain ⟨a, haa, hid⟩ := hdb.2 s hold
      rw [ha]
      exact ⟨a, haa, hid⟩
    · rw [ha, hnewid]
      exact haid

/-- The artist resolve never updates or deletes an existing row. -/
theorem dbPreserves_resolveArtist (an : String) (db : DB) :
    dbPreserves db (resolveArtist an db).2 := by
  obtain ⟨hs, hh, hmono, _⟩ := resolveArtist_spec an db
  exact ⟨hmono, fun s hsm => by rw [hs]; exact hsm, fun e he => by rw [hh]; exact he⟩

/-- The song resolve never updates or deletes an existing row. -/
theorem dbPreserves_resolveSong (sn : String) (aid : Nat) (si lk : String) (db : DB) :
    dbPreserves db (resolveSong sn aid si lk db).2 := by
  obtain ⟨ha, hh, hmono, _⟩ := resolveSong_spec sn aid si lk db
  exact ⟨fun a haa => by rw [ha]; exact haa, hmono, fun e he => by rw [hh]; exact he⟩

/-- Along the states a single row's statements produce, referential
integrity is maintained and no existing row is ever updated or deleted. -/
theorem rowTrace_spec (row : List String) (db : DB) (hdb : refIntegrity db) :
    (∀ s ∈ rowTrace row db, refIntegrity s) ∧
    List.Chain' dbPreserves (db :: rowTrace row db) := by
  rcases row with _ | ⟨t, _ | ⟨sn, _ | ⟨an, _ | ⟨si, _ | ⟨lk, _ | ⟨x, xs⟩⟩⟩⟩⟩⟩
  · exact ⟨by simp [rowTrace], by simp [rowTrace]⟩
  · exact ⟨by simp [rowTrace], by simp [rowTrace]⟩
  · exact ⟨by simp [rowTrace], by simp [rowTrace]⟩
  · exact ⟨by simp [rowTrace], by simp [rowTrace]⟩
  · exact ⟨by simp [rowTrace], by simp [rowTrace]⟩
  · cases hdt : parseDateTime t with
    | none => exact ⟨by simp [rowTrace, hdt], by simp [rowTrace, hdt]⟩
    | some dt =>
      have htrace : rowTrace [t, sn, an, si, lk] db =
          [(resolveArtist an db).2,
           (resolveSong sn (resolveArtist an db).1 si lk (resolveArtist an db).2).2] := by
        simp [rowTrace, hdt, insertHistory_fails]
      have h1 : refIntegrity (resolveArtist an db).2 :=
        refIntegrity_resolveArtist an db hdb
      have haid : ∃ a ∈ (resolveArtist an db).2.artists, a.id = (resolveArtist an db).1 :=
        (resolveArtist_spec an db).2.2.2
      have h2 : refIntegrity
          (resolveSong sn (resolveArtist an db).1 si lk (resolveArtist an db).2).2 :=
        refIntegrity_resolveSong sn (resolveArtist an db).1 si lk (resolveArtist an db).2 h1 haid
      rw [htrace]
      constructor
      · intro s hs
        rcases (by simpa using hs : s = (resolveArtist an db).2 ∨
            s = (resolveSong sn (resolveArtist an db).1 si lk (resolveArtist an db).2).2)
            with rfl | rfl
        · exact h1
        · exact h2
      · exact List.chain'_cons.2 ⟨dbPreserves_resolveArtist an db,
          List.chain'_cons.2 ⟨dbPreserves_resolveSong sn (resolveArtist an db).1 si lk
            (resolveArtist an db).2, List.chain'_singleton _⟩⟩
  · exact ⟨by simp [rowTrace], by simp [rowTrace]⟩

/-- Scanning quote-free characters inside a quoted field appends them to
the current field. -/
theorem csvScan_inQuoted : ∀ (f rest field : List Char) (acc : List String),
    (∀ c ∈ f, c ≠ '"') →
    csvScan .inQuoted (f ++ rest) field acc = csvScan .inQuoted rest (field ++ f) acc := by
  intro f
  induction f with
  | nil => intro rest field acc _; simp
  | cons c cs ih =>
    intro rest field acc hf
    have hc : c ≠ '"' := hf c (by simp)
    rw [List.cons_append]
    rw [show csvScan .inQuoted (c :: (cs ++ rest)) field acc
        = if c = '"' then csvScan .quoteInQuoted (cs ++ rest) field acc
          else csvScan .inQuoted (cs ++ rest) (field ++ [c]) acc from rfl]
    rw [if_neg hc, ih rest (field ++ [c]) acc (fun x hx => hf x (by simp [hx]))]
    simp

/-- Scanning a line of fully quoted quote-free fields recovers exactly
those fields. -/
theorem csvScan_encodeQuoted : ∀ (fs : List String) (acc : List String),
    fs ≠ [] → (∀ f ∈ fs, ∀ c ∈ f.data, c ≠ '"') →
    csvScan .startField (encodeQuoted fs).data [] acc = acc ++ fs := by
  intro fs
  induction fs with
  | nil => intro acc h _; exact absurd rfl h
  | cons f rest ih =>
    intro acc _ hq
    have hf : ∀ c ∈ f.data, c ≠ '"' := hq f (by simp)
    cases rest with
    | nil =>
      rw [show csvScan .startField (encodeQuoted [f]).data [] acc
          = csvScan .inQuoted (f.data ++ ['"']) [] acc from rfl]
      rw [csvScan_inQuoted f.data ['"'] [] acc hf]
      rfl
    | cons g rest2 =>
      rw [show csvScan .startField (encodeQuoted (f :: g :: rest2)).data [] acc
          = csvScan .inQuoted ((f.data ++ ['"', ',']) ++ (encodeQuoted (g :: rest2)).data) [] acc
          from rfl]
      rw [List.append_assoc,
          csvScan_inQuoted f.data (['"', ','] ++ (encodeQuoted (g :: rest2)).data) [] acc hf]
      rw [show csvScan .inQuoted (['"', ','] ++ (encodeQuoted (g :: rest2)).data) ([] ++ f.data) acc
          = csvScan .startField (encodeQuoted (g :: rest2)).data [] (acc ++ [f]) from rfl]
      rw [ih (acc ++ [f]) (by simp) (fun x hx => hq x (by simp [hx]))]
      simp

/-! ## The claims -/

/-- C1. The specification's end-to-end example promises that one input
row on an empty database commits one artist, one song and one history
row. The code cannot: its history INSERT names four target columns but
supplies three values, so the database rejects the statement, the run
aborts with a database error, and the commit is never reached, leaving
the database empty. (The timestamp field is quoted here; the example row
as literally spelled in the specification even fails earlier, splitting
into six fields.) -/
theorem spec_C1_end_to_end_aborts :
    (script ["\"January 5, 2024 at 3:45PM\",Song A,Artist X,abc123,http://link"] emptyDB).result
      = Except.error RunError.databaseError ∧
    (script ["\"January 5, 2024 at 3:45PM\",Song A,Artist X,abc123,http://link"] emptyDB).db
      = emptyDB :=
  ⟨rfl, rfl⟩

/-- C2 (amended). The cursor and connection close calls execute exactly
on the successful exit path: the script has no scoped acquisition, so on
every error path it aborts before cur.close() and conn.close(). -/
theorem spec_C2_close_only_on_success (lines : List String) (db : DB) :
    (script lines db).curClosed = runSucceeded (script lines db) ∧
    (script lines db).connClosed = runSucceeded (script lines db) := by
  cases h : runRows (lines.map csvParseLine) db <;> simp [script, runSucceeded, h]

/-- C2 (counterexample). A run that fails on a bad timestamp exits
without ever executing the close calls, refuting the claim that the
cursor and connection are closed on every exit path. -/
theorem spec_C2_counterexample :
    (script ["not a date,Song E,Artist W,jkl000,http://link4"] emptyDB).result
      = Except.error RunError.dateParseError ∧
    (script ["not a date,Song E,Artist W,jkl000,http://link4"] emptyDB).curClosed = false ∧
    (script ["not a date,Song E,Artist W,jkl000,http://link4"] emptyDB).connClosed = false :=
  ⟨rfl, rfl, rfl⟩

/-- C3 (amended). If the first row of the input has exactly five fields
and a timestamp the fixed format rejects, the run fails with the date
parse error and the committed database state is unchanged. (As stated
over every input the claim fails: an earlier row can abort the run with
a different error first.) -/
theorem spec_C3_first_row_bad_timestamp (l0 : String) (rest : List String) (db : DB)
    (t sn an si lk : String)
    (hrow : csvParseLine l0 = [t, sn, an, si, lk])
    (ht : parseDateTime t = none) :
    (script (l0 :: rest) db).result = Except.error RunError.dateParseError ∧
    (script (l0 :: rest) db).db = db := by
  have hp : processRow (csvParseLine l0) db = .error .dateParseError := by
    rw [hrow]
    simp [processRow, ht]
  constructor <;> simp [script, runRows, hp]

/-- C3 (witness). The specification's own bad-timestamp row, placed
first: the run fails with the date parse error and commits nothing. -/
theorem spec_C3_witness :
    csvParseLine "2024-01-05 15:45,Song A,Artist X,abc123,http://link"
      = ["2024-01-05 15:45", "Song A", "Artist X", "abc123", "http://link"] ∧
    parseDateTime "2024-01-05 15:45" = none ∧
    (script ["2024-01-05 15:45,Song A,Artist X,abc123,http://link"] emptyDB).result
      = Except.error RunError.dateParseError ∧
    (script ["2024-01-05 15:45,Song A,Artist X,abc123,http://link"] emptyDB).db = emptyDB := by
  refine ⟨by decide, by decide, ?_, ?_⟩
  · exact (spec_C3_first_row_bad_timestamp "2024-01-05 15:45,Song A,Artist X,abc123,http://link"
      [] emptyDB "2024-01-05 15:45" "Song A" "Artist X" "abc123" "http://link"
      (by decide) (by decide)).1
  · exact (spec_C3_first_row_bad_timestamp "2024-01-05 15:45,Song A,Artist X,abc123,http://link"
      [] emptyDB "2024-01-05 15:45" "Song A" "Artist X" "abc123" "http://link"
      (by decide) (by decide)).2

/-- C3 (counterexample). An input that does contain a row with an
unparseable timestamp, yet whose run fails with the unpacking error
instead, because a malformed row comes first: the universally quantified
claim is false. -/
theorem spec_C3_counterexample :
    parseDateTime "2024-01-05 15:45" = none ∧
    (script ["a,b,c,d", "2024-01-05 15:45,Song C,Artist Y,def456,http://link2"] emptyDB).result
      = Except.error RunError.malformedRow :=
  ⟨rfl, rfl⟩

/-- C4. Two rows sharing a spotify_id should collapse to one Song row
keeping the first row's name and link. The run instead aborts with a
database error while processing the first row, at the arity-mismatched
history INSERT; the second row is never processed and no Song row is
committed at all. -/
theorem spec_C4_song_dedup_unreachable :
    (script ["\"January 5, 2024 at 3:45PM\",Song A,Artist X,abc123,http://link",
             "\"January 6, 2024 at 4:00PM\",Song B,Artist X,abc123,http://other"] emptyDB).result
      = Except.error RunError.databaseError ∧
    (script ["\"January 5, 2024 at 3:45PM\",Song A,Artist X,abc123,http://link",
             "\"January 6, 2024 at 4:00PM\",Song B,Artist X,abc123,http://other"] emptyDB).db.songs
      = [] :=
  ⟨rfl, rfl⟩

/-- C5. Two rows with artist names differing only in case should produce
two distinct Artist rows. The run instead aborts with a database error
while processing the first row, at the arity-mismatched history INSERT;
the second row is never processed and no Artist row is committed. -/
theorem spec_C5_case_sensitivity_unreachable :
    (script ["\"January 5, 2024 at 3:45PM\",Song A,Drake,id1,http://l1",
             "\"January 6, 2024 at 4:00PM\",Song B,drake,id2,http://l2"] emptyDB).result
      = Except.error RunError.databaseError ∧
    (script ["\"January 5, 2024 at 3:45PM\",Song A,Drake,id1,http://l1",
             "\"January 6, 2024 at 4:00PM\",Song B,drake,id2,http://l2"] emptyDB).db.artists
      = [] :=
  ⟨rfl, rfl⟩

/-- C6. Importing the same CSV twice leaves the same number of Artist
and Song rows as importing it once, and the history rows added by the
double import are exactly twice those added by the single import. This
holds, though degenerately: every nonempty import aborts before the
commit (the history INSERT is rejected), and an empty import inserts
nothing, so no run ever changes the committed database. -/
theorem spec_C6_double_import_counts (lines : List String) (db : DB) :
    ((script lines (script lines db).db).db).artists.length
      = ((script lines db).db).artists.length ∧
    ((script lines (script lines db).db).db).songs.length
      = ((script lines db).db).songs.length ∧
    ((script lines (script lines db).db).db).history.length + db.history.length
      = 2 * ((script lines db).db).history.length := by
  refine ⟨?_, ?_, ?_⟩ <;> simp [script_db_eq, Nat.two_mul]

/-- C7. Along every transaction state the run produces, referential
integrity is maintained (every history row names an existing song, every
song names an existing artist, given it held initially), and from each
state to the next no existing artist, song or history row is updated or
deleted: the pipeline only inserts when absent and reuses ids
otherwise. -/
theorem spec_C7_referential_integrity (lines : List String) (db : DB)
    (hdb : refIntegrity db) :
    (∀ s ∈ scriptTrace lines db, refIntegrity s) ∧
    List.Chain' dbPreserves (db :: scriptTrace lines db) := by
  cases lines with
  | nil =>
    constructor
    · intro s hs
      exact absurd hs (List.not_mem_nil s)
    · exact List.chain'_singleton db
  | cons l ls =>
    obtain ⟨e, he⟩ := processRow_error (csvParseLine l) db
    have ht : scriptTrace (l :: ls) db = rowTrace (csvParseLine l) db := by
      simp [scriptTrace, runTrace, he]
    rw [ht]
    exact rowTrace_spec (csvParseLine l) db hdb

/-- C7 (witness). The integrity theorem applied to a concrete run on the
empty database. -/
theorem spec_C7_witness :
    refIntegrity emptyDB ∧
    ((∀ s ∈ scriptTrace ["\"January 5, 2024 at 3:45PM\",Song A,Artist X,abc123,http://link"]
        emptyDB, refIntegrity s) ∧
     List.Chain' dbPreserves
       (emptyDB :: scriptTrace ["\"January 5, 2024 at 3:45PM\",Song A,Artist X,abc123,http://link"]
         emptyDB)) :=
  ⟨by decide, spec_C7_referential_integrity
    ["\"January 5, 2024 at 3:45PM\",Song A,Artist X,abc123,http://link"] emptyDB (by decide)⟩

/-- C8 (amended). If the first row of the input does not parse into
exactly five fields, the run fails with the unpacking error and the
committed database state is unchanged. (As stated over every input the
claim fails: an earlier row can abort the run with a different error
first.) -/
theorem spec_C8_first_row_malformed (l0 : String) (rest : List String) (db : DB)
    (h : (csvParseLine l0).length ≠ 5) :
    (script (l0 :: rest) db).result = Except.error RunError.malformedRow ∧
    (script (l0 :: rest) db).db = db := by
  have hp := processRow_not5 (csvParseLine l0) db h
  constructor <;> simp [script, runRows, hp]

/-- C8 (witness). A four-field row placed first fails the run with the
unpacking error and commits nothing. -/
theorem spec_C8_witness :
    (csvParseLine "a,b,c,d").length ≠ 5 ∧
    (script ["a,b,c,d"] emptyDB).result = Except.error RunError.malformedRow ∧
    (script ["a,b,c,d"] emptyDB).db = emptyDB := by
  refine ⟨by decide, ?_, ?_⟩
  · exact (spec_C8_first_row_malformed "a,b,c,d" [] emptyDB (by decide)).1
  · exact (spec_C8_first_row_malformed "a,b,c,d" [] emptyDB (by decide)).2

/-- C8 (counterexample). An input that does contain a row with the wrong
field count, yet whose run fails with the date parse error instead,
because a row with a bad timestamp comes first: the universally
quantified claim is false. -/
theorem spec_C8_counterexample :
    (csvParseLine "w,x,y,z").length ≠ 5 ∧
    (script ["giberish,Song D,Artist Z,ghi789,http://link3", "w,x,y,z"] emptyDB).result
      = Except.error RunError.dateParseError :=
  ⟨by decide, rfl⟩

/-- C9. On an empty input the run completes successfully: nothing is
inserted, the empty transaction commits, the cursor and connection are
closed, and the success message is printed. -/
theorem spec_C9_empty_input (db : DB) :
    (script [] db).result = Except.ok () ∧
    (script [] db).db = db ∧
    (script [] db).curClosed = true ∧
    (script [] db).connClosed = true ∧
    (script [] db).stdout = ["Data imported successfully!"] :=
  ⟨rfl, rfl, rfl, rfl, rfl⟩

/-- C10. Lines are parsed with CSV quoting semantics, not naive comma
splitting: five double-quoted fields free of quote characters (and of
record-breaking newlines) are recovered exactly, commas inside them
included, so such a line unpacks into five values. -/
theorem spec_C10_quoted_fields (f1 f2 f3 f4 f5 : String)
    (h1 : ∀ c ∈ f1.data, c ≠ '"' ∧ c ≠ '\n' ∧ c ≠ '\r')
    (h2 : ∀ c ∈ f2.data, c ≠ '"' ∧ c ≠ '\n' ∧ c ≠ '\r')
    (h3 : ∀ c ∈ f3.data, c ≠ '"' ∧ c ≠ '\n' ∧ c ≠ '\r')
    (h4 : ∀ c ∈ f4.data, c ≠ '"' ∧ c ≠ '\n' ∧ c ≠ '\r')
    (h5 : ∀ c ∈ f5.data, c ≠ '"' ∧ c ≠ '\n' ∧ c ≠ '\r') :
    csvParseLine (encodeQuoted [f1, f2, f3, f4, f5]) = [f1, f2, f3, f4, f5] ∧
    (csvParseLine (encodeQuoted [f1, f2, f3, f4, f5])).length = 5 := by
  have hq : ∀ f ∈ [f1, f2, f3, f4, f5], ∀ c ∈ f.data, c ≠ '"' := by
    intro f hf c hc
    rcases (by simpa using hf : f = f1 ∨ f = f2 ∨ f = f3 ∨ f = f4 ∨ f = f5)
        with rfl | rfl | rfl | rfl | rfl
    · exact (h1 c hc).1
    · exact (h2 c hc).1
    · exact (h3 c hc).1
    · exact (h4 c hc).1
    · exact (h5 c hc).1
  have h := csvScan_encodeQuoted [f1, f2, f3, f4, f5] [] (by simp) hq
  constructor
  · simpa [csvParseLine] using h
  · rw [show csvParseLine (encodeQuoted [f1, f2, f3, f4, f5])
        = csvScan .startField (encodeQuoted [f1, f2, f3, f4, f5]).data [] [] from rfl, h]
    rfl

/-- C10 (witness). A song name containing a comma survives quoting: the
line splits into exactly its five fields. -/
theorem spec_C10_witness :
    csvParseLine (encodeQuoted
        ["January 5, 2024 at 3:45PM", "Hello, World", "Artist X", "abc123", "http://link"])
      = ["January 5, 2024 at 3:45PM", "Hello, World", "Artist X", "abc123", "http://link"] ∧
    (csvParseLine (encodeQuoted
        ["January 5, 2024 at 3:45PM", "Hello, World", "Artist X", "abc123", "http://link"])).length
      = 5 :=
  spec_C10_quoted_fields "January 5, 2024 at 3:45PM" "Hello, World" "Artist X" "abc123"
    "http://link" (by decide) (by decide) (by decide) (by decide) (by decide)

end ConvertCSVtoSQL
